import Mathlib

/- Shallow embedding of the pdf-summarise Slack bot: the subscription, trial
   and usage-metering logic of src/subscription_manager.py, src/migrations.py
   and src/feature_flags.py, and the webhook / PDF-pipeline control flow of
   src/app.py.

   Conventions: timestamps are integer seconds, `timedelta(days = n)` is
   `n * 86400`, and the Python `.days` attribute of a timedelta is floor
   division of its seconds by 86400 (`Int.fdiv`).  TinyDB tables are lists of
   records: `get` is `List.find?` (first match), `update` maps the new fields
   over every matching record, `insert` appends, `count` is `List.countP`.
   Dict keys that may be absent are `Option` fields; reading an absent key
   (`user['k']`, a `KeyError`) or looking up an unknown dict key lands in the
   enclosing `except` handler, which the definitions model by returning that
   handler's fallback value on those paths.  The `@FeatureFlags.require_flag`
   decorator returns `None` when its flag is off, so each decorated function
   is modelled as the `Option`-valued wrapper of a `_core` body. -/

/-- Feature flags read from the environment (src/feature_flags.py); each field
holds the value of the corresponding `ENABLE_*` environment variable. -/
structure Flags where
  subscription_system : Bool
  trial_period : Bool
  usage_tracking : Bool
  subscription_limits : Bool
  subscription_upgrade : Bool
deriving DecidableEq

/-- `is_subscription_enabled` (src/feature_flags.py, line 37). -/
def is_subscription_enabled (f : Flags) : Bool := f.subscription_system

/-- `is_trial_enabled` (src/feature_flags.py, line 41). -/
def is_trial_enabled (f : Flags) : Bool :=
  is_subscription_enabled f && f.trial_period

/-- A record of the `users` table.  Fields written by src/app.py
(`get_user_status`, `init_db`), src/migrations.py (`migrate_subscription_schema`
writes `trial_start_date`; `initialize_trial_period` writes `trial_start` and
`trial_end`; `update_subscription` writes the `subscription_*` fields). -/
structure UserRec where
  user_id : String
  team_id : Option String
  email : Option String := none
  status : Option String := none
  created_at : Option Int := none
  last_login : Option Int := none
  subscription_status : Option String := none
  subscription_tier : Option String := none
  trial_start_date : Option Int := none
  subscription_start_date : Option Int := none
  subscription_end_date : Option Int := none
  trial_start : Option Int := none
  trial_end : Option Int := none
deriving DecidableEq

/-- A record of the `usage` table (src/app.py, `record_usage`). -/
structure UsageRec where
  user_id : String
  team_id : Option String
  month : String
  timestamp : Int := 0
  email : Option String := none
  file_name : Option String := none
  user_status : Option String := none
deriving DecidableEq

/-- The TinyDB database `db.json` with its two tables. -/
structure DB where
  users : List UserRec
  usage : List UsageRec
deriving DecidableEq

/-- The TinyDB query `(User.user_id == user_id) & (User.team_id == team_id)`
with an `Option`-typed `team_id` (src/app.py `get_user_status` takes
`team_id = None` as default). -/
def gq (uid : String) (tid : Option String) (r : UserRec) : Bool :=
  r.user_id == uid && r.team_id == tid

/-- The same query specialised to a `str` `team_id`, as used by
src/subscription_manager.py and src/migrations.py. -/
def kq (uid tid : String) (r : UserRec) : Bool := gq uid (some tid) r

/-- `usage.count((Usage.user_id == u) & (Usage.team_id == t) & (Usage.month == m))`
(src/subscription_manager.py, lines 76-80). -/
def usageCount (db : DB) (u t month : String) : Nat :=
  db.usage.countP (fun r => r.user_id == u && r.team_id == some t && r.month == month)

/-- A monthly limit: Python `float('inf')` or an integer cap. -/
inductive Limit where
  | inf : Limit
  | fin : Nat → Limit
deriving DecidableEq

/-- The `SUBSCRIPTION_LIMITS` dict (src/subscription_manager.py, lines 23-28);
`none` models a `KeyError` on an unknown tier. -/
def SUBSCRIPTION_LIMITS (tier : String) : Option Limit :=
  if tier = "trial" then some Limit.inf
  else if tier = "standard" then some (Limit.fin 100)
  else if tier = "premium" then some (Limit.fin 1000)
  else if tier = "free" then some (Limit.fin 10)
  else none

/-- The dict returned by `get_subscription_limits`; absent keys are `none`. -/
structure LimitsResult where
  limit : Limit
  status : String
  tier : Option String := none
  days_remaining : Option Int := none
deriving DecidableEq

/-- The `{'limit': SUBSCRIPTION_LIMITS['free'], 'status': 'free'}` dict used for
a missing user and as the except-handler fallback
(src/subscription_manager.py, lines 38 and 61). -/
def freeDefault : LimitsResult := { limit := Limit.fin 10, status := "free" }

/-- The dict returned by `check_trial_status`. -/
structure TrialStatus where
  in_trial : Bool
  days_remaining : Option Int := none
  trial_end_date : Option Int := none
deriving DecidableEq

/-- `check_trial_status` (src/migrations.py, lines 54-76).  Note that the body
reads `trial_start_date` (written by the schema migration, not by
`initialize_trial_period`, which writes `trial_start`), recomputes
`trial_end = trial_start + 7 days`, and returns `in_trial: True` for every
user whose `subscription_status` is `'trial'` without ever comparing
`now` against `trial_end`; `days_remaining` is the floor of the signed
difference in days.  A missing `trial_start_date` key raises `KeyError`,
which the `except` handler turns into `{'in_trial': False}`. -/
def check_trial_status (db : DB) (now : Int) (u t : String) : TrialStatus :=
  match db.users.find? (kq u t) with
  | none => { in_trial := false }
  | some user =>
    if user.subscription_status == some "trial" then
      match user.trial_start_date with
      | none => { in_trial := false }
      | some ts =>
        let te := ts + 7 * 86400
        { in_trial := true
          days_remaining := some (Int.fdiv (te - now) 86400)
          trial_end_date := some te }
    else { in_trial := false }

/-- Lines 50-58 of src/subscription_manager.py: the non-trial tail of
`get_subscription_limits`.  The `SUBSCRIPTION_LIMITS[subscription_tier]`
lookup raises `KeyError` on an unknown tier, which the `except` handler
turns into the free default. -/
def tierLimits (user : UserRec) : LimitsResult :=
  let sstatus := user.subscription_status.getD "free"
  let stier := user.subscription_tier.getD "standard"
  match SUBSCRIPTION_LIMITS stier with
  | none => freeDefault
  | some l => { limit := l, status := sstatus, tier := some stier }

/-- Body of `get_subscription_limits` (src/subscription_manager.py,
lines 31-61), inside the `@FeatureFlags.require_flag('SUBSCRIPTION_SYSTEM')`
decorator. -/
def get_subscription_limits_core (f : Flags) (db : DB) (now : Int) (u t : String) :
    LimitsResult :=
  match db.users.find? (kq u t) with
  | none => freeDefault
  | some user =>
    if is_trial_enabled f then
      let ts := check_trial_status db now u t
      if ts.in_trial then
        { limit := Limit.inf, status := "trial", days_remaining := ts.days_remaining }
      else tierLimits user
    else tierLimits user

/-- `get_subscription_limits` as exported: the decorator returns `None` when
`ENABLE_SUBSCRIPTION_SYSTEM` is off (src/feature_flags.py, lines 17-27). -/
def get_subscription_limits (f : Flags) (db : DB) (now : Int) (u t : String) :
    Option LimitsResult :=
  if f.subscription_system then some (get_subscription_limits_core f db now u t)
  else none

/-- Body of `check_usage_limit` (src/subscription_manager.py, lines 64-85),
inside the `@FeatureFlags.require_flag('SUBSCRIPTION_LIMITS')` decorator.
If the inner decorated `get_subscription_limits` call returned `None`
(impossible here, since `is_subscription_enabled` was just checked), the
`limits['limit']` subscript would raise and the `except` handler would
return `False`. -/
def check_usage_limit_core (f : Flags) (db : DB) (now : Int) (month : String)
    (u t : String) : Bool :=
  if !is_subscription_enabled f then true
  else
    match get_subscription_limits f db now u t with
    | none => false
    | some limits =>
      match limits.limit with
      | Limit.inf => true
      | Limit.fin n => usageCount db u t month < n

/-- `check_usage_limit` as exported: the decorator returns `None` when
`ENABLE_SUBSCRIPTION_LIMITS` is off. -/
def check_usage_limit (f : Flags) (db : DB) (now : Int) (month : String)
    (u t : String) : Option Bool :=
  if f.subscription_limits then some (check_usage_limit_core f db now month u t)
  else none

/-- The field update applied by `update_subscription`
(src/migrations.py, lines 85-90). -/
def subUpd (now : Int) (tier status : String) (r : UserRec) : UserRec :=
  { r with
    subscription_status := some status
    subscription_tier := some tier
    subscription_start_date := some now
    subscription_end_date := some (now + 30 * 86400) }

/-- `update_subscription` (src/migrations.py, lines 78-96): updates every
matching record (a no-op when none matches) and returns `True`; no tier
validation is performed. -/
def update_subscription (db : DB) (now : Int) (u t tier status : String) :
    DB × Bool :=
  ({ db with users := db.users.map (fun r => if kq u t r then subUpd now tier status r else r) },
   true)

/-- `handle_subscription_change` (src/subscription_manager.py, lines 124-132),
with its `@FeatureFlags.require_flag('SUBSCRIPTION_UPGRADE')` decorator
(`none` when the flag is off). -/
def handle_subscription_change (f : Flags) (db : DB) (now : Int)
    (u t new_tier : String) : DB × Option Bool :=
  if f.subscription_upgrade then
    if is_subscription_enabled f then
      let p := update_subscription db now u t new_tier "active"
      (p.1, some p.2)
    else (db, some false)
  else (db, none)

/-- Python string truthiness of an optional `email` argument. -/
def strTruthy (s : Option String) : Bool :=
  match s with
  | none => false
  | some s => !(s == "")

/-- `get_user_status` (src/app.py, lines 90-111): get-or-create.  On a miss it
inserts a record with `status='free'` (and no subscription or trial fields);
on a hit with a changed truthy email it updates `email` and `last_login` in
the table and returns the record with the new email. -/
def get_user_status (db : DB) (now : Int) (uid : String) (email : Option String)
    (tid : Option String) : DB × UserRec :=
  match db.users.find? (gq uid tid) with
  | none =>
    let user : UserRec :=
      { user_id := uid, team_id := tid, email := email, status := some "free",
        created_at := some now, last_login := some now }
    ({ db with users := db.users ++ [user] }, user)
  | some user =>
    if strTruthy email && !(user.email == email) then
      ({ db with users := db.users.map (fun r =>
          if gq uid tid r then { r with email := email, last_login := some now } else r) },
       { user with email := email })
    else (db, user)

/-- `initialize_trial_period` (src/migrations.py, lines 34-52): updates every
matching record with trial status and `trial_end = now + TRIAL_PERIOD_DAYS`
(the env-derived day count is the `days` parameter) and returns `True`. -/
def init_trial_period (db : DB) (now : Int) (days : Int) (u t : String) :
    DB × Bool :=
  ({ db with users := db.users.map (fun r =>
      if kq u t r then
        { r with
            subscription_status := some "trial"
            subscription_tier := some "trial"
            trial_start := some now
            trial_end := some (now + days * 86400) }
      else r) },
   true)

/-- Concrete record: a migrated user whose trial started at time 0, so the
trial window ended at `7 * 86400`; with `now = 8 * 86400` the stored
`trial_end` is one day in the past. -/
def expiredTrialUser : UserRec :=
  { user_id := "U", team_id := some "T", subscription_status := some "trial",
    trial_start_date := some 0, trial_start := some 0, trial_end := some (7 * 86400) }

/-- Concrete record: an active user with an unknown stored tier. -/
def goldUser : UserRec :=
  { user_id := "U", team_id := some "T", subscription_status := some "active",
    subscription_tier := some "gold" }

/-- Concrete record: an active user with another unknown stored tier. -/
def platinumUser : UserRec :=
  { user_id := "V", team_id := some "W", subscription_status := some "active",
    subscription_tier := some "platinum" }

/-- Concrete record: an active standard-tier user. -/
def activeStdUser : UserRec :=
  { user_id := "U", team_id := some "T", subscription_status := some "active",
    subscription_tier := some "standard" }

/-- Flags with every `ENABLE_*` variable unset (the system fully disabled). -/
def flagsAllOff : Flags := ⟨false, false, false, false, false⟩

/-- Flags with only `ENABLE_SUBSCRIPTION_SYSTEM` set. -/
def flagsSubSysOnly : Flags := ⟨true, false, false, false, false⟩

/-- Flags with `ENABLE_SUBSCRIPTION_SYSTEM` and `ENABLE_TRIAL_PERIOD` set. -/
def flagsTrial : Flags := ⟨true, true, false, false, false⟩

/-- Flags with `ENABLE_SUBSCRIPTION_SYSTEM` and `ENABLE_SUBSCRIPTION_UPGRADE`
set. -/
def flagsUpgrade : Flags := ⟨true, false, false, false, true⟩


/-- The user-message content sent to the chat-completions API by
`generate_summary` (src/app.py, line 203). -/
def openai_user_prompt (text : String) : String :=
  "Please summarize the following text:\n\n" ++ text

/-- `generate_summary` (src/app.py, lines 192-215): one API call on the whole
input text, no splitting.  The opaque LLM capability is the `api` parameter
(an `Except`, since the call can fail and the exception propagates). -/
def generate_summary (api : String → Except String String) (text : String) :
    Except String String :=
  api (openai_user_prompt text)

/-- The error message posted by the per-file `except` handler
(src/app.py, line 482). -/
def error_message (name : String) : String :=
  "Sorry, I encountered an error processing " ++ name ++ ". Please try again."

/-- The summary message posted on success (src/app.py, line 466). -/
def summary_message (name s : String) : String :=
  "Here\x27s the summary of " ++ name ++ ":\n\n" ++ s

/-- A file object of a Slack event. -/
structure SlackFile where
  id : String
  name : String
  filetype : String
deriving DecidableEq

/-- The per-file body of the `/slack/events` handler loop (src/app.py,
lines 402-483).  Non-PDF files are skipped (`continue`).  The external steps
(file download, PDF text extraction, the LLM call, the usage-record insert)
are `Except`-valued parameters; a failure in any of them raises, and the
per-file `except` handler posts the generic error message.  In particular
`record_usage` (line 459) runs inside the same `try` block, before the
`chat_postMessage` of the summary (line 463), so a usage-recording failure
reaches the `except` handler and the computed summary is never posted.
The result is the message posted for this file, if any. -/
def processFile (download extract api : String → Except String String)
    (record : Except String Unit) (f : SlackFile) : Option String :=
  if f.filetype == "pdf" then
    some (match download f.id with
      | Except.error _ => error_message f.name
      | Except.ok content =>
        match extract content with
        | Except.error _ => error_message f.name
        | Except.ok text =>
          match generate_summary api text with
          | Except.error _ => error_message f.name
          | Except.ok summary =>
            match record with
            | Except.error _ => error_message f.name
            | Except.ok _ => summary_message f.name summary)
  else none

/-- The `event` object of a parsed Slack envelope. -/
structure SlackEventMsg where
  type : String
  user : String
  team : String
  channel : String
  ts : String
  thread_ts : Option String := none
  files : Option (List SlackFile) := none
deriving DecidableEq

/-- A parsed `/slack/events` request body. -/
structure Envelope where
  challenge : Option String := none
  event : Option SlackEventMsg := none
deriving DecidableEq

/-- The HTTP response of the `/slack/events` endpoint on a well-formed body. -/
inductive EndpointResponse where
  | challenge : String → EndpointResponse
  | okTrue : EndpointResponse
deriving DecidableEq

/-- The `/slack/events` endpoint (src/app.py, lines 366-494) on a well-formed
JSON body: echo a challenge if present; otherwise, for an `app_mention`
event with files, process each file in order and return `{"ok": True}`.
The second component is the ordered list of chat messages posted.  The
handler keeps no state between deliveries: its output is a function of the
envelope (and the external capabilities) alone, so a redelivered envelope
is processed again in full. -/
def slack_events_endpoint (download extract api : String → Except String String)
    (record : Except String Unit) (env : Envelope) :
    EndpointResponse × List String :=
  match env.challenge with
  | some c => (EndpointResponse.challenge c, [])
  | none =>
    match env.event with
    | none => (EndpointResponse.okTrue, [])
    | some ev =>
      if ev.type == "app_mention" then
        match ev.files with
        | none => (EndpointResponse.okTrue, [])
        | some fs =>
          (EndpointResponse.okTrue, fs.filterMap (processFile download extract api record))
      else (EndpointResponse.okTrue, [])

/-- Modelled from the spec (section 4.3, step 2): the chunking policy —
"split into fixed-size 4000-character chunks (simple slicing)".  No such
splitting exists in src/: `generate_summary` (src/app.py, lines 192-215)
sends the whole text in one call.  This definition exists to compare the
spec's described behaviour with the code's. -/
def chunks4000 (l : List Char) : List (List Char) :=
  if h : l = [] then []
  else l.take 4000 :: chunks4000 (l.drop 4000)
termination_by l.length
decreasing_by
  simp only [List.length_drop]
  exact Nat.sub_lt (List.length_pos.mpr h) (by decide)

/-- Modelled from the spec (section 4.3, step 2): summarize each 4000-character
chunk independently and join the per-chunk summaries with a blank line;
texts at or below 4000 characters are summarized in one call.  Absent from
src/ (see `chunks4000`). -/
def spec_chunked_summary (summarize : String → String) (text : String) : String :=
  if 4000 < text.length then
    String.intercalate "\n\n" ((chunks4000 text.toList).map (fun c => summarize (String.mk c)))
  else summarize text

/-- Modelled from the spec (section 4.2): the Event Dedup Guard's bounded
in-memory set of seen payload hashes.  No such guard exists in src/ (the
`/slack/events` handler performs no deduplication); the structure and its
operations follow the spec's words. -/
structure DedupGuard where
  seen : List Nat
deriving DecidableEq

/-- Modelled from the spec (section 4.2): the fixed ceiling of 1000 entries. -/
def DEDUP_CEILING : Nat := 1000

/-- Modelled from the spec (section 4.2): `IsProcessed(hash)` is a membership
test on the bounded set. -/
def IsProcessed (g : DedupGuard) (x : Nat) : Bool := g.seen.contains x

/-- Modelled from the spec (section 4.2): `MarkProcessed(hash)` inserts; if the
set size then exceeds the ceiling, the entire set is cleared rather than
evicting individually. -/
def MarkProcessed (g : DedupGuard) (x : Nat) : DedupGuard :=
  let s := if g.seen.contains x then g.seen else g.seen ++ [x]
  if DEDUP_CEILING < s.length then ⟨[]⟩ else ⟨s⟩

/-- A sequence of later `MarkProcessed` calls applied in order. -/
def runMarks (g : DedupGuard) : List Nat → DedupGuard
  | [] => g
  | x :: xs => runMarks (MarkProcessed g x) xs

/-- True when no call in the sequence triggers the clear-on-overflow (the set
after an insert is never empty, and a cleared set is). -/
def noClear (g : DedupGuard) : List Nat → Bool
  | [] => true
  | x :: xs => !(MarkProcessed g x).seen.isEmpty && noClear (MarkProcessed g x) xs

/-- Modelled from the spec (section 6): a webhook envelope reduced to the parts
the dedup contract mentions — an optional `challenge` and the dedup hash of
the full parsed payload. -/
structure SpecEnvelope where
  challenge : Option String := none
  payloadHash : Nat
deriving DecidableEq

/-- Outcome of the spec-modelled webhook handler: a challenge echo, an
`{"ok": true}` answer with no further work (duplicate), or an
`{"ok": true}` answer after processing. -/
inductive SpecHandlerOutcome where
  | challengeEcho : String → SpecHandlerOutcome
  | okSkip : SpecHandlerOutcome
  | okProcessed : SpecHandlerOutcome
deriving DecidableEq

/-- Modelled from the spec (section 6, `POST /events`): echo a challenge;
otherwise, if the payload hash is already processed, return `{"ok": true}`
without further work; otherwise process and mark.  This consultation of the
guard is absent from the src/app.py endpoint. -/
def spec_webhook (g : DedupGuard) (e : SpecEnvelope) :
    SpecHandlerOutcome × DedupGuard :=
  match e.challenge with
  | some c => (SpecHandlerOutcome.challengeEcho c, g)
  | none =>
    if IsProcessed g e.payloadHash then (SpecHandlerOutcome.okSkip, g)
    else (SpecHandlerOutcome.okProcessed, MarkProcessed g e.payloadHash)

/-- A pdf file object used in concrete runs. -/
def pdfFileDoc : SlackFile := ⟨"F1", "doc.pdf", "pdf"⟩

/-- An `app_mention` envelope carrying one pdf file. -/
def envMentionPdf : Envelope :=
  { event := some
      { type := "app_mention"
        user := "U"
        team := "T"
        channel := "C"
        ts := "1"
        files := some [pdfFileDoc] } }

/-- An 8001-character extracted text. -/
def bigText : String := String.mk (List.replicate 8001 'a')

/-- `List.find?` over a conditional update `map` whose condition is the find
predicate itself and whose update preserves the predicate: it returns the
updated first match.  This is the shape of every TinyDB
`table.update(fields, cond)` followed by `table.get(cond)`. -/
theorem find?_map_key {α : Type} (p : α → Bool) (g : α → α)
    (hg : ∀ r, p (g r) = p r) (l : List α) :
    (l.map (fun r => if p r then g r else r)).find? p = (l.find? p).map g := by
  induction l with
  | nil => rfl
  | cons a l ih =>
    cases hp : p a with
    | true => simp [List.find?_cons, hp, hg]
    | false => simp [List.find?_cons, hp, ih]

/-- A conditional-update `map` whose condition matches no element is the
identity: a TinyDB `update` with a query matching nothing changes nothing. -/
theorem map_key_none {α : Type} (p : α → Bool) (g : α → α) (l : List α)
    (h : ∀ r ∈ l, p r = false) :
    l.map (fun r => if p r then g r else r) = l := by
  induction l with
  | nil => rfl
  | cons a l ih =>
    have ha := h a (List.mem_cons_self a l)
    simp only [List.map_cons, ha, Bool.false_eq_true, if_false,
      ih (fun r hr => h r (List.mem_cons_of_mem a hr))]

/-- The set after `MarkProcessed` is either cleared or exactly the inserted
set. -/
theorem mark_seen_cases (g : DedupGuard) (x : Nat) :
    (MarkProcessed g x).seen = [] ∨
    (MarkProcessed g x).seen = (if g.seen.contains x then g.seen else g.seen ++ [x]) := by
  unfold MarkProcessed
  by_cases hlen :
      DEDUP_CEILING < (if g.seen.contains x then g.seen else g.seen ++ [x]).length
  · left; rw [if_pos hlen]
  · right; rw [if_neg hlen]

/-- Inserting a hash that does not trigger the clear leaves that hash a member
of the guard's set. -/
theorem mem_markProcessed_self (g : DedupGuard) (x : Nat)
    (hne : (MarkProcessed g x).seen ≠ []) : x ∈ (MarkProcessed g x).seen := by
  rcases mark_seen_cases g x with h | h
  · exact absurd h hne
  · rw [h]
    by_cases hc : g.seen.contains x = true
    · rw [if_pos hc]
      exact List.elem_iff.mp hc
    · rw [if_neg hc]
      simp

/-- A later `MarkProcessed` that does not clear the set preserves
membership. -/
theorem mem_markProcessed_mono (g : DedupGuard) (x y : Nat)
    (hne : (MarkProcessed g x).seen ≠ []) (hy : y ∈ g.seen) :
    y ∈ (MarkProcessed g x).seen := by
  rcases mark_seen_cases g x with h | h
  · exact absurd h hne
  · rw [h]
    by_cases hc : g.seen.contains x = true
    · rw [if_pos hc]
      exact hy
    · rw [if_neg hc]
      exact List.mem_append_left _ hy

/-- Membership survives any run of later `MarkProcessed` calls during which the
set is never cleared. -/
theorem runMarks_mem (ops : List Nat) : ∀ (g : DedupGuard) (y : Nat),
    y ∈ g.seen → noClear g ops = true → y ∈ (runMarks g ops).seen := by
  induction ops with
  | nil => intro g y hy _; exact hy
  | cons x xs ih =>
    intro g y hy hnc
    simp only [noClear, Bool.and_eq_true, Bool.not_eq_true'] at hnc
    obtain ⟨h1, h2⟩ := hnc
    have hne : (MarkProcessed g x).seen ≠ [] := by
      simpa [List.isEmpty_eq_false] using h1
    exact ih _ _ (mem_markProcessed_mono g x y hne hy) h2

/-- C1 counterexample: with every feature flag off (the feature system as
globally disabled as it can be), `check_usage_limit` does not return `True`:
the `require_flag('SUBSCRIPTION_LIMITS')` decorator short-circuits to `None`
before the fail-open `return True` at src/subscription_manager.py line 68
can run. -/
theorem check_usage_limit_disabled_counterexample :
    check_usage_limit flagsAllOff (DB.mk [] []) 0 "2025-01" "U" "T" ≠ some true := by
  decide

/-- C1 (amended): provided `ENABLE_SUBSCRIPTION_LIMITS` is on (so the decorator
passes), `check_usage_limit` returns `True` whenever the subscription system
is globally disabled (fail-open), and otherwise returns `True` exactly when
the current-month usage count is strictly below the limit resolved by
`get_subscription_limits`, an infinite limit always passing. -/
theorem check_usage_limit_spec (f : Flags) (db : DB) (now : Int) (month : String)
    (u t : String) (hl : f.subscription_limits = true) :
    (f.subscription_system = false → check_usage_limit f db now month u t = some true) ∧
    (f.subscription_system = true →
      (check_usage_limit f db now month u t = some true ↔
        (get_subscription_limits_core f db now u t).limit = Limit.inf ∨
        ∃ n, (get_subscription_limits_core f db now u t).limit = Limit.fin n ∧
          usageCount db u t month < n)) := by
  constructor
  · intro hsys
    simp [check_usage_limit, check_usage_limit_core, is_subscription_enabled, hl, hsys]
  · intro hsys
    simp only [check_usage_limit, hl, if_true, check_usage_limit_core,
      is_subscription_enabled, hsys, Bool.not_true, Bool.false_eq_true, if_false,
      get_subscription_limits]
    cases hlim : (get_subscription_limits_core f db now u t).limit with
    | inf => simp [hlim]
    | fin n => simp [hlim]

/-- C1 witness: a concrete configuration with `ENABLE_SUBSCRIPTION_LIMITS` on
and the subscription system off, at which `check_usage_limit` fails open. -/
theorem check_usage_limit_spec_witness :
    check_usage_limit ⟨false, false, false, true, false⟩ (DB.mk [] []) 0 "2025-01" "U" "T"
      = some true :=
  (check_usage_limit_spec ⟨false, false, false, true, false⟩ (DB.mk [] []) 0 "2025-01"
    "U" "T" rfl).1 rfl

/-- C2: evaluation at the failing input.  `expiredTrialUser` has
`subscription_status='trial'` and a trial that started 8 days before
`now = 8 * 86400`, so its stored `trial_end = 7 * 86400` is one day in the
past; with trial enabled, `check_trial_status` still reports
`in_trial: True` with a negative `days_remaining = -1`, and
`get_subscription_limits` reports an unlimited trial — the code never
compares `now` against `trial_end`. -/
theorem trial_never_expires_bug :
    expiredTrialUser.trial_end = some (7 * 86400) ∧
    ((7 : Int) * 86400 < 8 * 86400) ∧
    check_trial_status (DB.mk [expiredTrialUser] []) (8 * 86400) "U" "T" =
      { in_trial := true, days_remaining := some (-1), trial_end_date := some (7 * 86400) } ∧
    get_subscription_limits flagsTrial (DB.mk [expiredTrialUser] []) (8 * 86400) "U" "T" =
      some { limit := Limit.inf, status := "trial", days_remaining := some (-1) } := by
  decide

/-- C3: evaluation at the failing input.  With upgrades enabled,
`handle_subscription_change` with the invalid tier `"bogus"` returns
`True` and rewrites the account to `subscription_tier='bogus'`,
`status='active'`, new start and end dates — there is no tier validation
and the prior state is not preserved (the repository's own
`test_invalid_subscription_tier` expects an exception here). -/
theorem bogus_tier_accepted_bug :
    (handle_subscription_change flagsUpgrade (DB.mk [activeStdUser] []) 0 "U" "T" "bogus").2
      = some true ∧
    (handle_subscription_change flagsUpgrade (DB.mk [activeStdUser] []) 0 "U" "T" "bogus").1.users
      = [subUpd 0 "bogus" "active" activeStdUser] ∧
    (subUpd 0 "bogus" "active" activeStdUser).subscription_tier = some "bogus" ∧
    (handle_subscription_change flagsUpgrade (DB.mk [activeStdUser] []) 0 "U" "T" "bogus").1
      ≠ DB.mk [activeStdUser] [] := by
  decide

/-- C5 counterexample: for an account whose stored tier is the unknown
`"gold"`, `get_subscription_limits` does not fail with `InvalidTier`: the
`KeyError` is swallowed and the free default `{limit: 10, status: 'free'}`
is returned. -/
theorem unknown_tier_counterexample :
    get_subscription_limits flagsSubSysOnly (DB.mk [goldUser] []) 0 "U" "T"
      = some freeDefault := by
  decide

/-- C5 (amended): on the non-trial path, `get_subscription_limits` for an
account whose stored `subscription_tier` is not a known tier fails soft:
it returns the free default `{limit: 10, status: 'free'}` rather than an
`InvalidTier` error. -/
theorem unknown_tier_fails_soft (f : Flags) (db : DB) (now : Int) (u t : String)
    (user : UserRec)
    (hs : f.subscription_system = true)
    (hf : db.users.find? (kq u t) = some user)
    (ht : SUBSCRIPTION_LIMITS (user.subscription_tier.getD "standard") = none)
    (htr : (check_trial_status db now u t).in_trial = false) :
    get_subscription_limits f db now u t = some freeDefault := by
  have htail : tierLimits user = freeDefault := by
    simp [tierLimits, ht]
  simp only [get_subscription_limits, hs, if_true, get_subscription_limits_core, hf]
  by_cases hte : is_trial_enabled f = true
  · simp [hte, htr, htail]
  · simp [hte, htail]

/-- C5 witness: a second concrete account with unknown tier `"platinum"`, at
which the amended statement evaluates to the free default. -/
theorem unknown_tier_fails_soft_witness :
    get_subscription_limits flagsSubSysOnly (DB.mk [platinumUser] []) 0 "V" "W"
      = some freeDefault :=
  unknown_tier_fails_soft flagsSubSysOnly (DB.mk [platinumUser] []) 0 "V" "W"
    platinumUser rfl rfl rfl rfl

/-- C6: once `MarkProcessed(h)` has been called (and that insert did not itself
overflow the 1000-entry ceiling), `IsProcessed(h)` stays `true` across any
later sequence of `MarkProcessed` calls during which the bounded set is
never cleared by overflow, and the spec-modelled webhook handler answers an
already-processed envelope with `{"ok": true}` (the skip outcome) without
further work and without touching the guard. -/
theorem dedup_marked_stays_processed (g : DedupGuard) (x : Nat) (ops : List Nat)
    (e : SpecEnvelope)
    (h1 : (MarkProcessed g x).seen ≠ [])
    (h2 : noClear (MarkProcessed g x) ops = true)
    (hc : e.challenge = none)
    (hh : e.payloadHash = x) :
    IsProcessed (runMarks (MarkProcessed g x) ops) x = true ∧
    spec_webhook (runMarks (MarkProcessed g x) ops) e =
      (SpecHandlerOutcome.okSkip, runMarks (MarkProcessed g x) ops) := by
  have hmem : x ∈ (MarkProcessed g x).seen := mem_markProcessed_self g x h1
  have hall : x ∈ (runMarks (MarkProcessed g x) ops).seen :=
    runMarks_mem ops _ x hmem h2
  have hip : IsProcessed (runMarks (MarkProcessed g x) ops) x = true :=
    List.elem_iff.mpr hall
  refine ⟨hip, ?_⟩
  simp [spec_webhook, hc, hh, hip]

/-- C6 witness: a concrete run — mark hash 5 in an empty guard, then mark 7;
hash 5 is still processed and the handler skips its redelivery. -/
theorem dedup_marked_stays_processed_witness :
    IsProcessed (runMarks (MarkProcessed ⟨[]⟩ 5) [7]) 5 = true ∧
    spec_webhook (runMarks (MarkProcessed ⟨[]⟩ 5) [7]) ⟨none, 5⟩ =
      (SpecHandlerOutcome.okSkip, runMarks (MarkProcessed ⟨[]⟩ 5) [7]) :=
  dedup_marked_stays_processed ⟨[]⟩ 5 [7] ⟨none, 5⟩ (by decide) (by decide) rfl rfl

/-- C4: for an existing account, a successful premium change writes
`status='active'`, `tier='premium'`, `start=now`, `end=now+30 days`, and an
immediately following `get_subscription_limits` returns
`{limit: 1000, status: 'active', tier: 'premium'}`. -/
theorem premium_change_then_get_limits (f : Flags) (db : DB) (now : Int)
    (u t : String) (user : UserRec)
    (hu : f.subscription_upgrade = true) (hs : f.subscription_system = true)
    (hf : db.users.find? (kq u t) = some user) :
    (handle_subscription_change f db now u t "premium").2 = some true ∧
    (handle_subscription_change f db now u t "premium").1.users.find? (kq u t) =
      some (subUpd now "premium" "active" user) ∧
    (subUpd now "premium" "active" user).subscription_status = some "active" ∧
    (subUpd now "premium" "active" user).subscription_tier = some "premium" ∧
    (subUpd now "premium" "active" user).subscription_start_date = some now ∧
    (subUpd now "premium" "active" user).subscription_end_date = some (now + 30 * 86400) ∧
    get_subscription_limits f (handle_subscription_change f db now u t "premium").1 now u t =
      some { limit := Limit.fin 1000, status := "active", tier := some "premium" } := by
  have hchange : handle_subscription_change f db now u t "premium" =
      (DB.mk (db.users.map
          (fun r => if kq u t r then subUpd now "premium" "active" r else r)) db.usage,
       some true) := by
    simp [handle_subscription_change, update_subscription, is_subscription_enabled, hu, hs]
  have hfind : (db.users.map
      (fun r => if kq u t r then subUpd now "premium" "active" r else r)).find? (kq u t) =
      some (subUpd now "premium" "active" user) := by
    rw [find?_map_key (kq u t) (subUpd now "premium" "active") (fun r => rfl), hf]
    rfl
  refine ⟨by rw [hchange], by rw [hchange]; exact hfind, rfl, rfl, rfl, rfl, ?_⟩
  rw [hchange]
  have hct : check_trial_status (DB.mk (db.users.map
      (fun r => if kq u t r then subUpd now "premium" "active" r else r)) db.usage) now u t =
      { in_trial := false } := by
    simp only [check_trial_status, hfind]
    rfl
  have hcore : get_subscription_limits_core f (DB.mk (db.users.map
      (fun r => if kq u t r then subUpd now "premium" "active" r else r)) db.usage) now u t =
      tierLimits (subUpd now "premium" "active" user) := by
    simp only [get_subscription_limits_core, hfind, hct]
    simp
  have hwrap : get_subscription_limits f (DB.mk (db.users.map
      (fun r => if kq u t r then subUpd now "premium" "active" r else r)) db.usage) now u t =
      some (tierLimits (subUpd now "premium" "active" user)) := by
    simp [get_subscription_limits, hs, hcore]
  rw [hwrap]
  simp [tierLimits, subUpd, SUBSCRIPTION_LIMITS]

/-- C4 witness: concrete run — an (active, standard) account is switched to
premium at time 5 and the immediately following limits read reports the
premium limit. -/
theorem premium_change_then_get_limits_witness :
    (handle_subscription_change flagsUpgrade (DB.mk [activeStdUser] []) 5 "U" "T" "premium").2
      = some true ∧
    (handle_subscription_change flagsUpgrade (DB.mk [activeStdUser] []) 5 "U" "T"
      "premium").1.users.find? (kq "U" "T") = some (subUpd 5 "premium" "active" activeStdUser) ∧
    (subUpd 5 "premium" "active" activeStdUser).subscription_status = some "active" ∧
    (subUpd 5 "premium" "active" activeStdUser).subscription_tier = some "premium" ∧
    (subUpd 5 "premium" "active" activeStdUser).subscription_start_date = some 5 ∧
    (subUpd 5 "premium" "active" activeStdUser).subscription_end_date = some (5 + 30 * 86400) ∧
    get_subscription_limits flagsUpgrade
      (handle_subscription_change flagsUpgrade (DB.mk [activeStdUser] []) 5 "U" "T" "premium").1
      5 "U" "T" =
      some { limit := Limit.fin 1000, status := "active", tier := some "premium" } :=
  premium_change_then_get_limits flagsUpgrade (DB.mk [activeStdUser] []) 5 "U" "T"
    activeStdUser rfl rfl (by decide)

/-- C10: with upgrades enabled and no account record for `(u, t)`,
`handle_subscription_change` with a valid tier still returns `True` while
the database is left exactly as it was — no record is created or modified,
so the caller cannot distinguish this from a real tier change. -/
theorem change_on_missing_account (f : Flags) (db : DB) (now : Int) (u t tier : String)
    (hu : f.subscription_upgrade = true) (hs : f.subscription_system = true)
    (htier : tier = "standard" ∨ tier = "premium")
    (hf : db.users.find? (kq u t) = none) :
    handle_subscription_change f db now u t tier = (db, some true) := by
  have hall : ∀ r ∈ db.users, kq u t r = false := fun r hr =>
    Bool.eq_false_iff.mpr (List.find?_eq_none.mp hf r hr)
  have hmap := map_key_none (kq u t) (subUpd now tier "active") db.users hall
  simp [handle_subscription_change, update_subscription, is_subscription_enabled,
    hu, hs, hmap]

/-- C10 witness: concrete run on an empty database. -/
theorem change_on_missing_account_witness :
    handle_subscription_change flagsUpgrade (DB.mk [] []) 0 "NOUSER" "NOTEAM" "standard"
      = (DB.mk [] [], some true) :=
  change_on_missing_account flagsUpgrade (DB.mk [] []) 0 "NOUSER" "NOTEAM" "standard"
    rfl rfl (Or.inl rfl) rfl

/-- C8 counterexample: first contact on an empty database creates the account
with `status='free'` and no subscription or trial fields — not
`status=trial` with `trial_end = now + TRIAL_PERIOD_DAYS` as claimed. -/
theorem lazy_creation_free_counterexample :
    (get_user_status (DB.mk [] []) 0 "U8" none (some "T8")).2.status = some "free" ∧
    (get_user_status (DB.mk [] []) 0 "U8" none (some "T8")).2.status ≠ some "trial" ∧
    (get_user_status (DB.mk [] []) 0 "U8" none (some "T8")).2.subscription_status = none ∧
    (get_user_status (DB.mk [] []) 0 "U8" none (some "T8")).2.trial_end = none := by
  decide

/-- C8 (amended): the account is created lazily on first contact with exactly
one record per `(user_id, team_id)` key, but it defaults to `status='free'`
with no trial fields; the trial default (`status='trial'`,
`trial_end = now + TRIAL_PERIOD_DAYS`) is only applied when
`initialize_trial_period` is explicitly called on the already-created
record. -/
theorem lazy_creation_free_default (db : DB) (now : Int) (uid : String)
    (email : Option String) (t : String) (days : Int)
    (hf : db.users.find? (gq uid (some t)) = none) :
    (get_user_status db now uid email (some t)).1.users.countP (gq uid (some t)) = 1 ∧
    (get_user_status db now uid email (some t)).2 =
      { user_id := uid, team_id := some t, email := email, status := some "free",
        created_at := some now, last_login := some now } ∧
    (init_trial_period (get_user_status db now uid email (some t)).1 now days uid t).1.users.find?
        (gq uid (some t)) =
      some { user_id := uid, team_id := some t, email := email, status := some "free",
             created_at := some now, last_login := some now,
             subscription_status := some "trial", subscription_tier := some "trial",
             trial_start := some now, trial_end := some (now + days * 86400) } := by
  have hgus : get_user_status db now uid email (some t) =
      (DB.mk (db.users ++
        [{ user_id := uid, team_id := some t, email := email, status := some "free",
           created_at := some now, last_login := some now }]) db.usage,
       { user_id := uid, team_id := some t, email := email, status := some "free",
         created_at := some now, last_login := some now }) := by
    simp [get_user_status, hf]
  have hzero : db.users.countP (gq uid (some t)) = 0 :=
    List.countP_eq_zero.mpr (List.find?_eq_none.mp hf)
  have hmatch : gq uid (some t)
      { user_id := uid, team_id := some t, email := email, status := some "free",
        created_at := some now, last_login := some now } = true := by
    simp [gq]
  have hmatchk : kq uid t
      { user_id := uid, team_id := some t, email := email, status := some "free",
        created_at := some now, last_login := some now } = true := hmatch
  refine ⟨?_, by rw [hgus], ?_⟩
  · rw [hgus]
    simp [List.countP_append, hzero, List.countP_cons, hmatch]
  · rw [hgus]
    have hall : ∀ r ∈ db.users, kq uid t r = false := fun r hr =>
      Bool.eq_false_iff.mpr (List.find?_eq_none.mp hf r hr)
    have hmatchu : gq uid (some t)
        { user_id := uid, team_id := some t, email := email, status := some "free",
          created_at := some now, last_login := some now,
          subscription_status := some "trial", subscription_tier := some "trial",
          trial_start := some now, trial_end := some (now + days * 86400) } = true := by
      simp [gq]
    simp only [init_trial_period, List.map_append, List.map_cons, List.map_nil]
    rw [map_key_none (kq uid t) _ db.users hall]
    rw [if_pos hmatchk]
    rw [List.find?_append, hf]
    simp only [Option.none_or]
    rw [List.find?_cons_of_pos _ hmatchu]

/-- C8 witness: concrete first contact on an empty database at time 3,
followed by an explicit trial initialization with a 7-day period. -/
theorem lazy_creation_free_default_witness :
    (get_user_status (DB.mk [] []) 3 "U8" (some "u8@example.com") (some "T8")).1.users.countP
      (gq "U8" (some "T8")) = 1 ∧
    (get_user_status (DB.mk [] []) 3 "U8" (some "u8@example.com") (some "T8")).2 =
      { user_id := "U8", team_id := some "T8", email := some "u8@example.com",
        status := some "free", created_at := some 3, last_login := some 3 } ∧
    (init_trial_period
        (get_user_status (DB.mk [] []) 3 "U8" (some "u8@example.com") (some "T8")).1
        3 7 "U8" "T8").1.users.find? (gq "U8" (some "T8")) =
      some { user_id := "U8", team_id := some "T8", email := some "u8@example.com",
             status := some "free", created_at := some 3, last_login := some 3,
             subscription_status := some "trial", subscription_tier := some "trial",
             trial_start := some 3, trial_end := some (3 + 7 * 86400) } :=
  lazy_creation_free_default (DB.mk [] []) 3 "U8" (some "u8@example.com") "T8" 7 rfl

/-- C9 counterexample: a delivery whose download, extraction and summarization
all succeed but whose usage-recording step fails posts the generic error
message instead of the computed summary — the summary is not delivered. -/
theorem record_failure_drops_summary_counterexample :
    slack_events_endpoint (fun _ => Except.ok "bytes") (fun _ => Except.ok "text")
      (fun _ => Except.ok "S") (Except.error "db write failed") envMentionPdf =
      (EndpointResponse.okTrue, [error_message "doc.pdf"]) ∧
    error_message "doc.pdf" ≠ summary_message "doc.pdf" "S" := by
  decide

/-- C9 (amended): after a successful summarization, a failure of the
usage-recording step reaches the per-file `except` handler, which posts the
generic error message in place of the already-computed summary; with
recording succeeding, the very same run posts the summary.  The failure
does not crash the handler, but delivery of the summary is aborted. -/
theorem record_failure_aborts_delivery
    (download extract : String → Except String String)
    (content text s err : String) (f : SlackFile)
    (hft : f.filetype = "pdf")
    (hdl : download f.id = Except.ok content)
    (hex : extract content = Except.ok text) :
    processFile download extract (fun _ => Except.ok s) (Except.error err) f =
      some (error_message f.name) ∧
    processFile download extract (fun _ => Except.ok s) (Except.ok ()) f =
      some (summary_message f.name s) := by
  constructor <;> simp [processFile, hft, hdl, hex, generate_summary]

/-- C9 witness: concrete run of both conclusions at a pdf file. -/
theorem record_failure_aborts_delivery_witness :
    processFile (fun _ => Except.ok "bytes") (fun _ => Except.ok "text")
      (fun _ => Except.ok "S") (Except.error "down") pdfFileDoc =
      some (error_message "doc.pdf") ∧
    processFile (fun _ => Except.ok "bytes") (fun _ => Except.ok "text")
      (fun _ => Except.ok "S") (Except.ok ()) pdfFileDoc =
      some (summary_message "doc.pdf" "S") :=
  record_failure_aborts_delivery (fun _ => Except.ok "bytes") (fun _ => Except.ok "text")
    "bytes" "text" "S" "down" pdfFileDoc rfl rfl rfl

/-- Unfolding step of the spec-modelled chunking on a replicated list. -/
theorem chunks4000_step (n : Nat) (a : Char) (hn : n ≠ 0) :
    chunks4000 (List.replicate n a) =
      List.replicate (min 4000 n) a :: chunks4000 (List.replicate (n - 4000) a) := by
  have hne : List.replicate n a ≠ [] := by
    simp only [ne_eq, List.replicate_eq_nil_iff]
    exact hn
  rw [chunks4000]
  rw [dif_neg hne, List.take_replicate, List.drop_replicate]

/-- The spec-modelled chunking of the empty text. -/
theorem chunks4000_nil : chunks4000 ([] : List Char) = [] := by
  rw [chunks4000]
  simp

/-- The spec-modelled chunking of an 8001-character text: exactly three chunks
of sizes 4000, 4000 and 1. -/
theorem chunks4000_bigText :
    chunks4000 bigText.toList =
      [List.replicate 4000 'a', List.replicate 4000 'a', List.replicate 1 'a'] := by
  have h0 : bigText.toList = List.replicate 8001 'a' := rfl
  rw [h0, chunks4000_step 8001 'a' (by norm_num)]
  rw [show min 4000 8001 = 4000 by norm_num, show 8001 - 4000 = 4001 by norm_num]
  rw [chunks4000_step 4001 'a' (by norm_num)]
  rw [show min 4000 4001 = 4000 by norm_num, show 4001 - 4000 = 1 by norm_num]
  rw [chunks4000_step 1 'a' (by norm_num)]
  rw [show min 4000 1 = 1 by norm_num, show 1 - 4000 = 0 by norm_num]
  rw [show List.replicate 0 'a' = [] from rfl, chunks4000_nil]

/-- C7 counterexample: on the 8001-character text, the spec's chunking yields
three chunks of sizes [4000, 4000, 1] and (with a summarizer returning "S"
for every chunk) the blank-line-joined summary "S\n\nS\n\nS"; the code's
pipeline instead makes a single call on the whole text and delivers that
single call's answer "S", so the delivered message differs from the
claimed chunked one. -/
theorem chunking_counterexample :
    (chunks4000 bigText.toList).map List.length = [4000, 4000, 1] ∧
    spec_chunked_summary (fun _ => "S") bigText = "S\n\nS\n\nS" ∧
    generate_summary (fun _ => Except.ok "S") bigText = Except.ok "S" ∧
    processFile (fun _ => Except.ok "bytes") (fun _ => Except.ok bigText)
      (fun _ => Except.ok "S") (Except.ok ()) pdfFileDoc =
      some (summary_message "doc.pdf" "S") ∧
    summary_message "doc.pdf" "S" ≠ summary_message "doc.pdf" "S\n\nS\n\nS" := by
  have hlen : 4000 < bigText.length := by
    show 4000 < (List.replicate 8001 'a').length
    rw [List.length_replicate]
    norm_num
  refine ⟨?_, ?_, rfl, rfl, by decide⟩
  · rw [chunks4000_bigText]
    simp only [List.map_cons, List.map_nil, List.length_replicate]
  · unfold spec_chunked_summary
    rw [if_pos hlen, chunks4000_bigText]
    simp only [List.map_cons, List.map_nil]
    decide

/-- C7 (amended): the pipeline performs no chunking — for any extracted text,
including one longer than 4000 characters, the summarizer is invoked
exactly once, on the single prompt containing the whole text (the oracle
used here fails on every other query, so a chunked pipeline would have
posted the error message), and the delivered summary is that single call's
answer, with no per-chunk joining. -/
theorem no_chunking (name fid content s : String) (text : String)
    (h : 4000 < text.length) :
    processFile (fun _ => Except.ok content) (fun _ => Except.ok text)
      (fun q => if q == openai_user_prompt text then Except.ok s
                else Except.error "unexpected prompt")
      (Except.ok ()) ⟨fid, name, "pdf"⟩ =
      some (summary_message name s) := by
  simp [processFile, generate_summary]

/-- An extracted text of 4001 characters. -/
def text4001 : String := String.mk (List.replicate 4001 'a')

/-- C7 witness: the amended statement at a concrete 4001-character text. -/
theorem no_chunking_witness :
    processFile (fun _ => Except.ok "bytes") (fun _ => Except.ok text4001)
      (fun q => if q == openai_user_prompt text4001 then Except.ok "S4"
                else Except.error "unexpected prompt")
      (Except.ok ()) ⟨"F2", "big.pdf", "pdf"⟩ =
      some (summary_message "big.pdf" "S4") :=
  no_chunking "big.pdf" "F2" "bytes" "S4" text4001
    (by show 4000 < (List.replicate 4001 'a').length
        rw [List.length_replicate]
        norm_num)
